import Mathlib

/-!
# Duck Hunt — shallow embedding of `src/duckhunt.js`

This file embeds the timing/state core of the Duck Hunt game (the duck
lifecycle, the dog intro sequence, and the win/respawn loop) as executable
Lean definitions, and proves or refutes the claims of the specification.

Conventions of the embedding:
* `Math.random()` draws are passed in explicitly as rationals in `[0, 1)`.
* The DOM element of a duck or dog is represented by a state record; a CSS
  class (`flap`, `right`, `shot`, `sniff`, ...) is a `Bool` field.
* Timer callbacks are events of a trace; the order of the trace is the order
  in which the single-threaded event loop fires the callbacks.
* `element.parentNode.removeChild(element)` on an element that is no longer
  attached throws a `TypeError` (`parentNode` is `null`); the embedding
  returns `Except.error DomError.nullParentRemoveChild` there.  All other
  DOM operations used by the source (`classList.add/remove/toggle`, style
  writes) succeed even on detached elements.
-/

namespace DuckHunt

/-- The one runtime error the source can hit: dereferencing the `null`
`parentNode` of an already-removed element inside
`duck.parentNode.removeChild(duck)` (src/duckhunt.js:299, :78 etc.). -/
inductive DomError
  | nullParentRemoveChild
  deriving DecidableEq, Repr

/-- State of one duck element, from `createDuck` (src/duckhunt.js:257-305).
`flap`, `faceRight` (`right`), `shot` are the CSS classes; `top`/`left` the
style position; `inDom` whether the element is still attached;
`lateralPosition` is the closure variable of the same name, set once at
creation (line 271) and never reassigned; the two periods are the interval
delays drawn once when `setInterval` is called (lines 267 and 292);
`eliminations` counts successful removals (each runs `checkForWinner`). -/
structure DuckState where
  flap : Bool
  top : ℚ
  left : ℚ
  faceRight : Bool
  shot : Bool
  inDom : Bool
  lateralPosition : ℚ
  flapPeriod : ℚ
  movePeriod : ℚ
  eliminations : Nat
  deriving DecidableEq, Repr

/-- Flap-interval delay `(Math.random() * 200) + 100` (src/duckhunt.js:267). -/
def flapPeriodOf (r : ℚ) : ℚ := r * 200 + 100

/-- Move-interval delay `(Math.random() * 1500) + 500` (src/duckhunt.js:292). -/
def movePeriodOf (r : ℚ) : ℚ := r * 1500 + 500

/-- `createDuck` (src/duckhunt.js:257-305): fresh element, no classes, placed
at `(Math.random()*innerWidth, Math.random()*innerHeight)`, with its two
interval periods drawn once. `rFlap`, `rMove`, `ry`, `rx` are the four
`Math.random()` results in source order; `W`/`H` are the viewport sizes. -/
def createDuck (rFlap rMove ry rx W H : ℚ) : DuckState :=
  { flap := false
    top := ry * H
    left := rx * W
    faceRight := false
    shot := false
    inDom := true
    lateralPosition := rx * W
    flapPeriod := flapPeriodOf rFlap
    movePeriod := movePeriodOf rMove
    eliminations := 0 }

/-- The body of the move interval (src/duckhunt.js:278-292): draw a new
position, set the `right` class iff `lateralPosition < newLateralPosition`
(the closure variable, which still holds the spawn x), write the new style
position.  Note the callback never updates `lateralPosition`. -/
def duckMove (W H ry rx : ℚ) (d : DuckState) : DuckState :=
  { d with
    faceRight := decide (d.lateralPosition < rx * W)
    top := ry * H
    left := rx * W }

/-- A timer/event callback owned by one duck:
* `flapTick` — the flap interval body `duck.classList.toggle(..flap..)`
  (src/duckhunt.js:265-267);
* `moveTick ry rx` — the move interval body with its two fresh random draws
  (src/duckhunt.js:278-292);
* `click` — the click listener body up to scheduling (src/duckhunt.js:296-297):
  adds the `shot` class and schedules a `removeTimeout` 500 ms later;
* `removeTimeout` — the scheduled body (src/duckhunt.js:298-301):
  `duck.parentNode.removeChild(duck); checkForWinner();`. -/
inductive DuckEvent
  | flapTick
  | moveTick (ry rx : ℚ)
  | click
  | removeTimeout
  deriving Repr

/-- One event-loop callback of a duck.  None of the intervals is ever
cleared in the source, so `flapTick` and `moveTick` fire and mutate the
element regardless of `shot`/`inDom`.  `removeTimeout` throws when the
element was already removed (`parentNode` is `null`). -/
def duckStep (W H : ℚ) (d : DuckState) : DuckEvent → Except DomError DuckState
  | .flapTick => .ok { d with flap := !d.flap }
  | .moveTick ry rx => .ok (duckMove W H ry rx d)
  | .click => .ok { d with shot := true }
  | .removeTimeout =>
      if d.inDom then
        .ok { d with inDom := false, eliminations := d.eliminations + 1 }
      else
        .error .nullParentRemoveChild

/-- Run a sequence of callbacks of one duck in event-loop order, stopping at
the first thrown error. -/
def runDuck (W H : ℚ) (d : DuckState) : List DuckEvent → Except DomError DuckState
  | [] => .ok d
  | e :: es => (duckStep W H d e).bind fun d' => runDuck W H d' es

/-! ## Dog intro (`createDog`, src/duckhunt.js:45-240)

The inner interval (period 900 ms, src/duckhunt.js:63-224) schedules eight
timeouts per tick, at offsets 0, 100, 200, 300, 400, 500, 700, 800 ms.  Each
timeout body checks `current > target`; while false it performs its walking
action, and once true it schedules the surprise sequence
(`surprise` at +0 ms, `leap-into-bushes` at +1000 ms, `removeChild` at
+1500 ms) and calls `clearInterval()` — with **no argument**, which clears
nothing, so the interval keeps firing.  The embedding runs the eight timeout
bodies of one tick in their time order and counts how many times the
surprise sequence gets scheduled. -/

/-- Dog element state: `current` is the closure variable holding the x
position, the `Bool`s are the `sniff` / `lift-left-leg` / `lift-right-leg`
classes, `surpriseCount` counts how many timeout bodies have entered the
`dogReachedMiddle` branch (each scheduling the full surprise/leap/remove
sequence once more). -/
structure DogState where
  current : ℚ
  sniff : Bool
  liftLeftLeg : Bool
  liftRightLeg : Bool
  surpriseCount : Nat
  deriving DecidableEq, Repr

/-- `target = (window.innerWidth - 171) / 2` (src/duckhunt.js:49). -/
def dogTarget (W : ℚ) : ℚ := (W - 171) / 2

/-- Initial dog state: `current = -171` (src/duckhunt.js:50), no classes. -/
def dogInit : DogState :=
  { current := -171, sniff := false, liftLeftLeg := false,
    liftRightLeg := false, surpriseCount := 0 }

/-- The walking action of each of the eight timeouts of one inner-interval
tick, in offset order: sniff on (+0), sniff off (+100), step with left leg
lifted (+200), step with left leg dropped (+300), step with right leg lifted
(+400), step with right leg dropped (+500), sniff on (+700), sniff off
(+800).  Each `step*` action does `current += 20` (src/duckhunt.js:105,
126, 147, 168). -/
inductive DogAction
  | sniffOn
  | sniffOff
  | stepLiftLeft
  | stepDropLeft
  | stepLiftRight
  | stepDropRight
  deriving DecidableEq, Repr

/-- The eight timeout bodies of one inner-interval tick, in firing order
(offsets 0, 100, 200, 300, 400, 500, 700, 800 ms). -/
def dogSlotOrder : List DogAction :=
  [.sniffOn, .sniffOff, .stepLiftLeft, .stepDropLeft,
   .stepLiftRight, .stepDropRight, .sniffOn, .sniffOff]

/-- Effect of a walking action on the dog state. -/
def dogWalkAction (a : DogAction) (d : DogState) : DogState :=
  match a with
  | .sniffOn => { d with sniff := true }
  | .sniffOff => { d with sniff := false }
  | .stepLiftLeft => { d with current := d.current + 20, liftLeftLeg := true }
  | .stepDropLeft => { d with current := d.current + 20, liftLeftLeg := false }
  | .stepLiftRight => { d with current := d.current + 20, liftRightLeg := true }
  | .stepDropRight => { d with current := d.current + 20, liftRightLeg := false }

/-- One timeout body: `let dogReachedMiddle = current > target; if
(!dogReachedMiddle) { <walking action> } else { <schedule surprise sequence>;
clearInterval(); }`.  `clearInterval()` is called without an id and clears
nothing, so it leaves the state unchanged. -/
def dogSlot (target : ℚ) (d : DogState) (a : DogAction) : DogState :=
  if target < d.current then { d with surpriseCount := d.surpriseCount + 1 }
  else dogWalkAction a d

/-- One inner-interval tick: the eight timeout bodies in firing order. -/
def dogTick (target : ℚ) (d : DogState) : DogState :=
  dogSlotOrder.foldl (dogSlot target) d

/-- `n` successive inner-interval ticks (the interval is never cleared, so
ticks continue indefinitely). -/
def dogRun (target : ℚ) (d : DogState) : Nat → DogState
  | 0 => d
  | n + 1 => dogRun target (dogTick target d) n

/-- Fire `n` scheduled `dog.parentNode.removeChild(dog)` callbacks
(src/duckhunt.js:78 and its seven copies) in order, starting from attachment
state `inDom`.  The first fired callback removes the element; every later
one dereferences the now-`null` `parentNode` and throws. -/
def execRemoves : Nat → Bool → Except DomError Unit
  | 0, _ => .ok ()
  | n + 1, inDom =>
      if inDom then execRemoves n false else .error .nullParentRemoveChild

/-! ## Win check and respawn (`checkForWinner`, src/duckhunt.js:317-330) -/

/-- The loop condition `i < (Math.random() * 7) + 3` (src/duckhunt.js:326
and :337).  `Math.random()` is re-evaluated at **every** condition check, so
each check consumes a fresh draw. -/
def spawnCheck (r : ℚ) (i : Nat) : Bool := decide ((i : ℚ) < r * 7 + 3)

/-- The respawn `for` loop: starting at counter `i`, keep iterating while
the freshly drawn condition holds.  `rs i` is the `Math.random()` result
consumed by the check at counter value `i`.  The fuel `11` covers every
possible run: with all draws below `1` the bound `r * 7 + 3` is below `10`,
so the check at `i = 10` always fails. -/
def spawnLoop (rs : Nat → ℚ) : Nat → Nat → Nat
  | 0, i => i
  | fuel + 1, i => if spawnCheck (rs i) i then spawnLoop rs fuel (i + 1) else i

/-- Number of ducks spawned by `for (let i = 0; i < (Math.random() * 7) + 3;
i++) createDuck();` given the stream of random draws. -/
def spawnCount (rs : Nat → ℚ) : Nat := spawnLoop rs 11 0

/-- Kind of user notification raised by the win branch. -/
inductive NotificationKind
  | modalAlert
  | nonBlockingToast
  deriving DecidableEq, Repr

/-- Whether a notification halts the script until the user dismisses it.
`window.alert` is a modal dialog: the event loop is blocked until OK is
pressed. -/
def NotificationKind.blocksProcess : NotificationKind → Bool
  | .modalAlert => true
  | .nonBlockingToast => false

/-- The notification `checkForWinner` raises given the number of remaining
`.duck` elements: `alert("You Win! Press OK to play again.")` when the count
is zero (src/duckhunt.js:322-324), nothing otherwise. -/
def winNotification (remainingDucks : Nat) : Option NotificationKind :=
  if remainingDucks = 0 then some .modalAlert else none

/-- Number of new ducks `checkForWinner` spawns given the number of
remaining `.duck` elements: the respawn loop runs exactly when the count is
zero (src/duckhunt.js:322-329). -/
def checkForWinnerSpawn (remainingDucks : Nat) (rs : Nat → ℚ) : Nat :=
  if remainingDucks = 0 then spawnCount rs else 0

/-- Modelled from the spec: "draws an integer count uniformly from
`[3, 10]`" — the canonical inverse-CDF uniform draw over the eight integers
3..10 from one uniform `r ∈ [0, 1)`.  Used only to compare the spawn count
of the source against the uniform rule of the spec. -/
def uniformCountSpec (r : ℚ) : ℤ := 3 + ⌊r * 8⌋

/-! ## Theorems -/

/-- C1: the claim says a removed (detached) duck never receives further
position or animation-phase mutations, since destroying an entity cancels
its scheduled callbacks.  The source never clears the flap and move
intervals, so they keep firing after removal: shooting the duck
(`click`), removing it 500 ms later (`removeTimeout`, after which
`inDom = false`), and letting its flap and move intervals fire once more
leaves the detached duck with its flap phase toggled (`flap = true`,
it was `false` at removal) and its position rewritten
(`left = 100`, it was `0` at removal). -/
theorem duck_mutated_after_removal :
    runDuck 200 100 (createDuck 0 0 0 0 200 100)
      [.click, .removeTimeout, .flapTick, .moveTick 0 (1/2)] =
    .ok { flap := true, top := 0, left := 100, faceRight := true, shot := true,
          inDom := false, lateralPosition := 0, flapPeriod := 100,
          movePeriod := 500, eliminations := 1 } := by
  norm_num [runDuck, duckStep, duckMove, createDuck, flapPeriodOf,
    movePeriodOf, Except.bind]

/-- C2: the claim says a second click on an already-`shot` duck within the
500 ms removal delay is a no-op: one elimination, one removal, no
exception.  In the source each click schedules its own removal timeout;
after the first timeout detaches the duck, the second timeout evaluates
`duck.parentNode.removeChild(duck)` with `parentNode = null` and throws a
`TypeError`.  The first three callbacks (two clicks, first removal) do
produce exactly one elimination, but the fourth throws. -/
theorem duck_double_click_throws :
    runDuck 200 100 (createDuck 0 0 0 0 200 100)
      [.click, .click, .removeTimeout] =
      .ok { flap := false, top := 0, left := 0, faceRight := false,
            shot := true, inDom := false, lateralPosition := 0,
            flapPeriod := 100, movePeriod := 500, eliminations := 1 } ∧
    runDuck 200 100 (createDuck 0 0 0 0 200 100)
      [.click, .click, .removeTimeout, .removeTimeout] =
      .error .nullParentRemoveChild := by
  norm_num [runDuck, duckStep, duckMove, createDuck, flapPeriodOf,
    movePeriodOf, Except.bind]

/-- C4: the claim says the dog enters `surprised` exactly once — at the
first tick at which its position reaches or passes the horizontal center
target — and never re-enters walking.  With viewport width 571 the target
is `(571 - 171) / 2 = 200`; the dog starts at `-171` and advances
`4 × 20 = 80` per inner-interval tick.  After 4 ticks (`current = 149`) no
surprise has fired; during tick 5 the position crosses 200 mid-tick and the
three remaining timeout bodies of that same tick each schedule the surprise
sequence (count 3, not 1); because `clearInterval()` is called with no
argument (clearing nothing), tick 6 schedules it 8 more times (count 11).
The surprise sequence is scheduled many times, not exactly once. -/
theorem dog_surprise_not_once :
    (dogRun (dogTarget 571) dogInit 4).surpriseCount = 0 ∧
    (dogRun (dogTarget 571) dogInit 5).surpriseCount = 3 ∧
    (dogRun (dogTarget 571) dogInit 6).surpriseCount = 11 := by
  norm_num [dogRun, dogTick, dogSlotOrder, dogSlot, dogWalkAction, dogTarget,
    dogInit]

/-- C5 counterexample: the claim says the facing direction is set to
`right` iff the newly chosen x exceeds the x held immediately before the
move.  Spawn a duck at `x = 10`, move it to `x = 100`, then move it to
`x = 50`: the new x (50) is smaller than the immediately preceding x (100),
so the claim demands direction `left`, but the source compares against the
never-updated closure variable `lateralPosition` (still 10 < 50) and sets
`right`. -/
theorem duck_direction_cex :
    (duckMove 200 100 0 (1/2) (createDuck 0 0 0 (1/20) 200 100)).left = 100 ∧
    (duckMove 200 100 0 (1/4)
      (duckMove 200 100 0 (1/2) (createDuck 0 0 0 (1/20) 200 100))).left = 50 ∧
    (duckMove 200 100 0 (1/4)
      (duckMove 200 100 0 (1/2)
        (createDuck 0 0 0 (1/20) 200 100))).faceRight = true := by
  norm_num [duckMove, createDuck]

/-- C5 amended: on every move the direction is set to `right` iff the newly
chosen x exceeds the x the duck held *at spawn time*: the comparison
baseline `lateralPosition` is fixed at creation to the spawn x and no
callback ever updates it. -/
theorem duck_direction_from_spawn (W H ry rx rFlap rMove ry0 rx0 : ℚ)
    (d d' : DuckState) (e : DuckEvent)
    (h : duckStep W H d e = .ok d') :
    (duckMove W H ry rx d).faceRight = decide (d.lateralPosition < rx * W) ∧
    d'.lateralPosition = d.lateralPosition ∧
    (createDuck rFlap rMove ry0 rx0 W H).lateralPosition = rx0 * W := by
  refine ⟨rfl, ?_, rfl⟩
  cases e with
  | flapTick =>
      simp only [duckStep, Except.ok.injEq] at h
      subst h; rfl
  | moveTick ry1 rx1 =>
      simp only [duckStep, Except.ok.injEq] at h
      subst h; rfl
  | click =>
      simp only [duckStep, Except.ok.injEq] at h
      subst h; rfl
  | removeTimeout =>
      simp only [duckStep] at h
      split at h
      · simp only [Except.ok.injEq] at h
        subst h; rfl
      · simp at h

/-- Witness for C5 amended: the theorem applied to a duck spawned at
`x = 10` receiving one flap tick. -/
theorem duck_direction_from_spawn_witness :
    (duckMove 200 100 0 (1/2) (createDuck 0 0 0 (1/20) 200 100)).faceRight =
        decide ((createDuck 0 0 0 (1/20) 200 100).lateralPosition <
          (1/2 : ℚ) * 200) ∧
    ({ flap := true, top := 0, left := 10, faceRight := false, shot := false,
       inDom := true, lateralPosition := 10, flapPeriod := 100,
       movePeriod := 500, eliminations := 0 } : DuckState).lateralPosition =
      (createDuck 0 0 0 (1/20) 200 100).lateralPosition ∧
    (createDuck 0 0 0 (1/20) 200 100).lateralPosition = (1/20 : ℚ) * 200 :=
  duck_direction_from_spawn 200 100 0 (1/2) 0 0 0 (1/20)
    (createDuck 0 0 0 (1/20) 200 100) _ .flapTick
    (by norm_num [duckStep, createDuck, flapPeriodOf, movePeriodOf])

/-- C6: the claim says no operation of the core ever raises a runtime
error.  The dog intro run of `dog_surprise_not_once` (viewport width 571,
5 inner ticks) schedules the surprise/leap/remove sequence 3 times; firing
those 3 scheduled `dog.parentNode.removeChild(dog)` callbacks in order
detaches the dog once and then throws a `TypeError` on the second callback
(`parentNode` is `null`). -/
theorem dog_repeated_removeChild_throws :
    execRemoves ((dogRun (dogTarget 571) dogInit 5).surpriseCount) true =
      .error .nullParentRemoveChild := by
  norm_num [dogRun, dogTick, dogSlotOrder, dogSlot, dogWalkAction, dogTarget,
    dogInit, execRemoves]

/-- C7: the claim says the win notification is non-blocking, with no modal
dialog halting the process before the next round spawns.  When the
remaining duck count reaches 0, `checkForWinner` raises
`alert("You Win! Press OK to play again.")` — a modal dialog that blocks
the script until dismissed — before the respawn loop runs. -/
theorem win_notification_blocking :
    winNotification 0 = some .modalAlert ∧
    NotificationKind.blocksProcess .modalAlert = true := by decide

/-- The respawn loop never exits below its starting counter. -/
theorem spawnLoop_ge (rs : Nat → ℚ) : ∀ fuel i, i ≤ spawnLoop rs fuel i := by
  intro fuel
  induction fuel with
  | zero => intro i; simp [spawnLoop]
  | succ n ih =>
      intro i
      rw [spawnLoop]
      by_cases h : spawnCheck (rs i) i = true
      · rw [if_pos h]
        exact le_trans (Nat.le_succ i) (ih (i + 1))
      · rw [if_neg h]

/-- With every draw below 1, the loop condition fails at counter 10, so the
loop never exceeds 10. -/
theorem spawnLoop_le (rs : Nat → ℚ) (hr : ∀ i, rs i < 1) :
    ∀ fuel i, i ≤ 10 → spawnLoop rs fuel i ≤ 10 := by
  intro fuel
  induction fuel with
  | zero => intro i hi; simpa [spawnLoop] using hi
  | succ n ih =>
      intro i hi
      rw [spawnLoop]
      by_cases h : spawnCheck (rs i) i = true
      · rw [if_pos h]
        apply ih
        rcases Nat.lt_or_ge i 10 with h10 | h10
        · omega
        · exfalso
          have hi10 : i = 10 := by omega
          subst hi10
          simp only [spawnCheck, decide_eq_true_eq] at h
          have h1 := hr 10
          push_cast at h
          nlinarith
      · rw [if_neg h]
        exact hi

/-- C3 counterexample: the claim says the respawn count is an integer drawn
uniformly from `[3, 10]`.  With every `Math.random()` draw equal to `1/100`,
the loop of the source runs 4 times, while the uniform rule of the spec maps
the draw `1/100` to a count of 3: the count of the source is not the uniform
draw, and a count of 3 is only reachable when a draw is exactly 0. -/
theorem spawn_count_not_uniform_cex :
    spawnCount (fun _ => 1/100) = 4 ∧ uniformCountSpec (1/100) = 3 := by
  constructor
  · norm_num [spawnCount, spawnLoop, spawnCheck]
  · have hfl : ⌊(1/100 : ℚ) * 8⌋ = 0 := by
      rw [Int.floor_eq_zero_iff]
      rw [Set.mem_Ico]
      norm_num
    rw [uniformCountSpec, hfl]
    norm_num

/-- C3 amended: when the remaining duck count reaches 0 exactly one new
round starts (and none otherwise), but its duck count is not a single
uniform draw from `[3, 10]`: the loop condition
`i < (Math.random() * 7) + 3` re-draws `Math.random()` at every check, the
resulting count always lies in `[3, 10]`, and a count of 3 occurs only when
the draw consumed at counter 3 is exactly 0 (an event of probability zero),
so the count is not uniform over `[3, 10]`. -/
theorem checkForWinner_spawn_amended (rs : Nat → ℚ)
    (hr : ∀ i, 0 ≤ rs i ∧ rs i < 1) :
    checkForWinnerSpawn 0 rs = spawnCount rs ∧
    checkForWinnerSpawn 1 rs = 0 ∧
    3 ≤ spawnCount rs ∧ spawnCount rs ≤ 10 ∧
    (spawnCount rs = 3 ↔ rs 3 = 0) := by
  have step : ∀ fuel i, spawnLoop rs (fuel + 1) i =
      if spawnCheck (rs i) i then spawnLoop rs fuel (i + 1) else i :=
    fun _ _ => rfl
  have h0 : spawnCheck (rs 0) 0 = true := by
    simp only [spawnCheck, decide_eq_true_eq]
    have := (hr 0).1
    push_cast
    nlinarith
  have h1 : spawnCheck (rs 1) 1 = true := by
    simp only [spawnCheck, decide_eq_true_eq]
    have := (hr 1).1
    push_cast
    nlinarith
  have h2 : spawnCheck (rs 2) 2 = true := by
    simp only [spawnCheck, decide_eq_true_eq]
    have := (hr 2).1
    push_cast
    nlinarith
  have e3 : spawnCount rs = spawnLoop rs 8 3 := by
    show spawnLoop rs (10 + 1) 0 = spawnLoop rs 8 3
    rw [step, if_pos h0]
    show spawnLoop rs (9 + 1) 1 = spawnLoop rs 8 3
    rw [step, if_pos h1]
    show spawnLoop rs (8 + 1) 2 = spawnLoop rs 8 3
    rw [step, if_pos h2]
  refine ⟨by simp [checkForWinnerSpawn], by simp [checkForWinnerSpawn],
    ?_, ?_, ?_⟩
  · rw [e3]
    exact spawnLoop_ge rs 8 3
  · rw [e3]
    exact spawnLoop_le rs (fun i => (hr i).2) 8 3 (by norm_num)
  · rw [e3]
    constructor
    · intro h
      by_contra hne
      have hpos : 0 < rs 3 := lt_of_le_of_ne (hr 3).1 (Ne.symm hne)
      have hc : spawnCheck (rs 3) 3 = true := by
        simp only [spawnCheck, decide_eq_true_eq]
        push_cast
        nlinarith
      rw [show spawnLoop rs 8 3 = spawnLoop rs (7 + 1) 3 from rfl,
        step, if_pos hc] at h
      have := spawnLoop_ge rs 7 (3 + 1)
      omega
    · intro h
      have hc : ¬ spawnCheck (rs 3) 3 = true := by
        simp only [spawnCheck, decide_eq_true_eq]
        push_cast
        rw [h]
        norm_num
      rw [show spawnLoop rs 8 3 = spawnLoop rs (7 + 1) 3 from rfl,
        step, if_neg hc]

/-- Witness for C3 amended: the theorem applied to the constant draw
stream `1/2` (which yields a count of 7). -/
theorem checkForWinner_spawn_amended_witness :
    checkForWinnerSpawn 0 (fun _ => 1/2) = spawnCount (fun _ => 1/2) ∧
    checkForWinnerSpawn 1 (fun _ => 1/2) = 0 ∧
    3 ≤ spawnCount (fun _ => 1/2) ∧ spawnCount (fun _ => 1/2) ≤ 10 ∧
    (spawnCount (fun _ => 1/2) = 3 ↔ (fun _ : Nat => (1/2 : ℚ)) 3 = 0) :=
  checkForWinner_spawn_amended (fun _ => 1/2) (fun _ => by norm_num)

/-- C8: the initial position of a duck and every subsequently assigned
position lie in `[0, W) × [0, H)`, and each coordinate is the image of the
raw uniform draw under the order-preserving linear map `r ↦ r * extent`
(so for any `a`, `b` the positions landing in `[a, b)` are exactly the
draws in `[a / W, b / W)`, an interval whose length is proportional to
`b - a`: the coordinate is uniform on `[0, W)`). -/
theorem duck_positions_in_bounds (W H rFlap rMove ry rx ry2 rx2 a b : ℚ)
    (d : DuckState) (hW : 0 < W) (hH : 0 < H)
    (hry : 0 ≤ ry) (hry1 : ry < 1) (hrx : 0 ≤ rx) (hrx1 : rx < 1)
    (hry2 : 0 ≤ ry2) (hry21 : ry2 < 1) (hrx2 : 0 ≤ rx2) (hrx21 : rx2 < 1) :
    (0 ≤ (createDuck rFlap rMove ry rx W H).left ∧
     (createDuck rFlap rMove ry rx W H).left < W ∧
     0 ≤ (createDuck rFlap rMove ry rx W H).top ∧
     (createDuck rFlap rMove ry rx W H).top < H) ∧
    (0 ≤ (duckMove W H ry2 rx2 d).left ∧ (duckMove W H ry2 rx2 d).left < W ∧
     0 ≤ (duckMove W H ry2 rx2 d).top ∧ (duckMove W H ry2 rx2 d).top < H) ∧
    ((a ≤ (duckMove W H ry2 rx2 d).left ∧ (duckMove W H ry2 rx2 d).left < b) ↔
     (a / W ≤ rx2 ∧ rx2 < b / W)) := by
  simp only [createDuck, duckMove]
  refine ⟨⟨mul_nonneg hrx hW.le, by nlinarith, mul_nonneg hry hH.le,
    by nlinarith⟩,
    ⟨mul_nonneg hrx2 hW.le, by nlinarith, mul_nonneg hry2 hH.le,
    by nlinarith⟩, ?_⟩
  rw [div_le_iff₀ hW, lt_div_iff₀ hW]

/-- Witness for C8: the theorem applied to a concrete viewport, draws and
probe interval. -/
theorem duck_positions_in_bounds_witness :
    (0 ≤ (createDuck 0 0 (1/2) (1/2) 200 100).left ∧
     (createDuck 0 0 (1/2) (1/2) 200 100).left < 200 ∧
     0 ≤ (createDuck 0 0 (1/2) (1/2) 200 100).top ∧
     (createDuck 0 0 (1/2) (1/2) 200 100).top < 100) ∧
    (0 ≤ (duckMove 200 100 (1/3) (1/4) (createDuck 0 0 0 0 200 100)).left ∧
     (duckMove 200 100 (1/3) (1/4) (createDuck 0 0 0 0 200 100)).left < 200 ∧
     0 ≤ (duckMove 200 100 (1/3) (1/4) (createDuck 0 0 0 0 200 100)).top ∧
     (duckMove 200 100 (1/3) (1/4) (createDuck 0 0 0 0 200 100)).top < 100) ∧
    ((30 ≤ (duckMove 200 100 (1/3) (1/4) (createDuck 0 0 0 0 200 100)).left ∧
      (duckMove 200 100 (1/3) (1/4) (createDuck 0 0 0 0 200 100)).left < 60) ↔
     ((30 : ℚ) / 200 ≤ 1/4 ∧ (1/4 : ℚ) < 60 / 200)) :=
  duck_positions_in_bounds 200 100 0 0 (1/2) (1/2) (1/3) (1/4) 30 60
    (createDuck 0 0 0 0 200 100) (by norm_num) (by norm_num) (by norm_num)
    (by norm_num) (by norm_num) (by norm_num) (by norm_num) (by norm_num)
    (by norm_num) (by norm_num)

/-- C9: the flap-interval delay, drawn as `(Math.random() * 200) + 100`,
lies in `[100, 300)`, and the move-interval delay, drawn as
`(Math.random() * 1500) + 500`, lies in `[500, 2000)`; since each is the
fixed period of its `setInterval`, it is the delay between any two
successive flap toggles resp. repositionings of the duck. -/
theorem duck_timer_periods_in_range (rFlap rMove ry rx W H : ℚ)
    (h1 : 0 ≤ rFlap) (h2 : rFlap < 1) (h3 : 0 ≤ rMove) (h4 : rMove < 1) :
    100 ≤ (createDuck rFlap rMove ry rx W H).flapPeriod ∧
    (createDuck rFlap rMove ry rx W H).flapPeriod < 300 ∧
    500 ≤ (createDuck rFlap rMove ry rx W H).movePeriod ∧
    (createDuck rFlap rMove ry rx W H).movePeriod < 2000 := by
  simp only [createDuck, flapPeriodOf, movePeriodOf]
  exact ⟨by nlinarith, by nlinarith, by nlinarith, by nlinarith⟩

/-- Witness for C9: the theorem applied to the draws `1/2`, `1/2`. -/
theorem duck_timer_periods_in_range_witness :
    100 ≤ (createDuck (1/2) (1/2) 0 0 200 100).flapPeriod ∧
    (createDuck (1/2) (1/2) 0 0 200 100).flapPeriod < 300 ∧
    500 ≤ (createDuck (1/2) (1/2) 0 0 200 100).movePeriod ∧
    (createDuck (1/2) (1/2) 0 0 200 100).movePeriod < 2000 :=
  duck_timer_periods_in_range (1/2) (1/2) 0 0 200 100 (by norm_num)
    (by norm_num) (by norm_num) (by norm_num)

/-- A single duck callback never changes the two interval periods. -/
theorem duckStep_preserves_periods (W H : ℚ) (d : DuckState) (e : DuckEvent)
    (d2 : DuckState) (h : duckStep W H d e = .ok d2) :
    d2.flapPeriod = d.flapPeriod ∧ d2.movePeriod = d.movePeriod := by
  cases e with
  | flapTick =>
      simp only [duckStep, Except.ok.injEq] at h
      subst h; exact ⟨rfl, rfl⟩
  | moveTick ry rx =>
      simp only [duckStep, Except.ok.injEq] at h
      subst h; exact ⟨rfl, rfl⟩
  | click =>
      simp only [duckStep, Except.ok.injEq] at h
      subst h; exact ⟨rfl, rfl⟩
  | removeTimeout =>
      simp only [duckStep] at h
      split at h
      · simp only [Except.ok.injEq] at h
        subst h; exact ⟨rfl, rfl⟩
      · simp at h

/-- No sequence of duck callbacks changes the two interval periods. -/
theorem runDuck_preserves_periods (W H : ℚ) :
    ∀ (es : List DuckEvent) (d d2 : DuckState),
      runDuck W H d es = .ok d2 →
      d2.flapPeriod = d.flapPeriod ∧ d2.movePeriod = d.movePeriod := by
  intro es
  induction es with
  | nil =>
      intro d d2 h
      simp only [runDuck, Except.ok.injEq] at h
      subst h; exact ⟨rfl, rfl⟩
  | cons e es ih =>
      intro d d2 h
      simp only [runDuck] at h
      cases hstep : duckStep W H d e with
      | error err =>
          rw [hstep] at h
          simp [Except.bind] at h
      | ok dmid =>
          rw [hstep] at h
          have h2 : runDuck W H dmid es = .ok d2 := h
          obtain ⟨p1, p2⟩ := ih dmid d2 h2
          obtain ⟨q1, q2⟩ := duckStep_preserves_periods W H d e dmid hstep
          exact ⟨p1.trans q1, p2.trans q2⟩

/-- C10: the flap-toggle period and the repositioning period of a duck are
each drawn exactly once, when `createDuck` calls `setInterval` (the delay
expression is evaluated once), and no later callback ever changes them:
after any sequence of callbacks the periods still equal the values drawn at
creation. -/
theorem duck_timer_periods_constant (W H rFlap rMove ry rx : ℚ)
    (es : List DuckEvent) (d2 : DuckState)
    (h : runDuck W H (createDuck rFlap rMove ry rx W H) es = .ok d2) :
    d2.flapPeriod = flapPeriodOf rFlap ∧ d2.movePeriod = movePeriodOf rMove := by
  obtain ⟨p1, p2⟩ := runDuck_preserves_periods W H es _ d2 h
  exact ⟨p1, p2⟩

/-- Witness for C10: the theorem applied to a duck with both periods drawn
from `1/2` (periods 200 and 1250) receiving one flap tick. -/
theorem duck_timer_periods_constant_witness :
    ({ flap := true, top := 0, left := 0, faceRight := false, shot := false,
       inDom := true, lateralPosition := 0, flapPeriod := 200,
       movePeriod := 1250, eliminations := 0 } : DuckState).flapPeriod =
      flapPeriodOf (1/2) ∧
    ({ flap := true, top := 0, left := 0, faceRight := false, shot := false,
       inDom := true, lateralPosition := 0, flapPeriod := 200,
       movePeriod := 1250, eliminations := 0 } : DuckState).movePeriod =
      movePeriodOf (1/2) :=
  duck_timer_periods_constant 200 100 (1/2) (1/2) 0 0 [.flapTick] _
    (by norm_num [runDuck, duckStep, createDuck, flapPeriodOf, movePeriodOf,
      Except.bind])

end DuckHunt
